import Mathlib

/-!
Verification of the ANGLE EGL display backend (`DisplayEGL.cpp`) and the
framebuffer-attachment data entity (`FramebufferAttachment.cpp`) against
their natural-language specification.

The C++ code is shallowly embedded: EGL handles (`EGLContext`, `EGLSurface`,
`EGLConfig`) become `Nat` with `0` standing for `EGL_NO_CONTEXT` /
`EGL_NO_SURFACE`; EGL/GL enum constants become `Int` constants with their
real header values; native entry points that the backend merely calls
(`eglCreateContext`, `eglMakeCurrent`, ...) become oracle functions supplied
in an environment record; observable side effects (native calls,
attach/detach notifications) are collected into explicit event traces.
-/

namespace Angle

/-! ### EGL / GL constants (values from the EGL and GL headers) -/

def EGL_DONT_CARE : Int := -1
def EGL_NONE : Int := 0x3038
def EGL_CONTEXT_CLIENT_VERSION : Int := 0x3098
def EGL_CONTEXT_MAJOR_VERSION : Int := 0x3098
def EGL_CONTEXT_MINOR_VERSION : Int := 0x30FB
def EGL_CONTEXT_OPENGL_RESET_NOTIFICATION_STRATEGY : Int := 0x31BD
def EGL_LOSE_CONTEXT_ON_RESET : Int := 0x31BF
def EGL_GENERATE_RESET_ON_VIDEO_MEMORY_PURGE_NV : Int := 0x334C
def EGL_PLATFORM_ANGLE_MAX_VERSION_MAJOR_ANGLE : Int := 0x3203
def EGL_PLATFORM_ANGLE_MAX_VERSION_MINOR_ANGLE : Int := 0x3204
def EGL_RGB_BUFFER : Int := 0x308E
def EGL_PIXMAP_BIT : Int := 0x0002
def GL_TRUE : Int := 1
def GL_NONE : Int := 0
def GL_ZERO : Int := 0
def GL_RGBA8 : Int := 0x8058
def GL_RGB8 : Int := 0x8051
def GL_RGB565 : Int := 0x8D62
def GL_RGB5_A1 : Int := 0x8057
def GL_RGBA4 : Int := 0x8056
def GL_RGB10_A2 : Int := 0x8059
def GL_DEPTH_COMPONENT16 : Int := 0x81A5
def GL_DEPTH_COMPONENT24 : Int := 0x81A6
def GL_DEPTH24_STENCIL8 : Int := 0x88F0
def GL_STENCIL_INDEX8 : Int := 0x8D48

/-! ### FramebufferAttachment (`src/libANGLE/FramebufferAttachment.cpp`)

`gl::ImageIndex` and `gl::Offset` live outside `src/`; only their
default values matter to the embedded operations, so they are modelled as
plain records with the defaults their constructors establish
(`ImageIndex::MakeInvalid()`, `Offset()`). Resources
(`FramebufferAttachmentObject *`) are identified by a `Nat` id; the null
pointer is `Option.none`. The `onAttach`/`onDetach` virtual calls are
recorded in an event list, in program order. -/

structure ImageIndex where
  indexType : Int
  mipIndex : Int
  layerIndex : Int
deriving DecidableEq, Repr

def ImageIndex.makeInvalid : ImageIndex := ⟨GL_NONE, -1, -1⟩

structure Offset where
  x : Int := 0
  y : Int := 0
  z : Int := 0
deriving DecidableEq, Repr

/-- `FramebufferAttachment::Target`: binding point plus texture image index.
The default constructor sets `GL_NONE` and `ImageIndex::MakeInvalid()`. -/
structure Target where
  binding : Int := GL_NONE
  textureIndex : ImageIndex := ImageIndex.makeInvalid
deriving DecidableEq, Repr

/-- State of a `gl::FramebufferAttachment`; field defaults follow the
default constructor (`mType = GL_NONE`, `mResource = nullptr`,
`mNumViews = 1`, `mMultiviewLayout = GL_NONE`, `mBaseViewIndex = 0`,
`mViewportOffsets(1u)`). -/
structure FramebufferAttachment where
  mType : Int := GL_NONE
  mTarget : Target := {}
  mResource : Option Nat := none
  mNumViews : Int := 1
  mMultiviewLayout : Int := GL_NONE
  mBaseViewIndex : Int := 0
  mViewportOffsets : List Offset := [{}]
deriving DecidableEq, Repr

/-- Notifications fired on attachment resources, in program order. -/
inductive Notif where
  | onAttach (resource : Nat)
  | onDetach (resource : Nat)
deriving DecidableEq, Repr

/-- `FramebufferAttachment::detach`: reset every field to its default;
fire `onDetach` on the bound resource when there is one. -/
def FramebufferAttachment.detach (a : FramebufferAttachment) :
    FramebufferAttachment × List Notif :=
  let notifs := match a.mResource with
    | some r => [Notif.onDetach r]
    | none => []
  ({ mType := GL_NONE
     mResource := none
     mNumViews := 1
     mMultiviewLayout := GL_NONE
     mBaseViewIndex := 0
     mViewportOffsets := [{}]
     mTarget := {} }, notifs)

/-- `FramebufferAttachment::attach`: a null resource delegates to `detach`;
otherwise install the new type/target, fire `onAttach` on the new resource,
then `onDetach` on the previously bound resource (if any), then store the
new resource. -/
def FramebufferAttachment.attach (a : FramebufferAttachment)
    (type binding : Int) (textureIndex : ImageIndex)
    (resource : Option Nat) : FramebufferAttachment × List Notif :=
  match resource with
  | none => a.detach
  | some r =>
    let notifs := Notif.onAttach r ::
      (match a.mResource with
       | some old => [Notif.onDetach old]
       | none => [])
    ({ a with
        mType := type
        mTarget := ⟨binding, textureIndex⟩
        mResource := some r }, notifs)

/-! ### DisplayEGL::createPixmapSurface

The body is `UNIMPLEMENTED(); return nullptr;` — it logs the unimplemented
marker and returns the null surface pointer. The returned pair is
(surface pointer, unimplemented-marker-fired). -/

def createPixmapSurface (state : Nat) (nativePixmap : Nat)
    (attribs : List (Int × Int)) : Option Nat × Bool :=
  (none, true)

/-! ### DisplayEGL::makeCurrent (`DisplayEGL.cpp`, lines 720-817)

Per-thread cached binding (`CurrentNativeContext` in `DisplayEGL.h`):
surface and context handles plus the external-context flag. The function is
modelled from the point of view of the calling thread: it receives that
thread's cache entry and returns the updated entry, the call result, and
the trace of native `eglMakeCurrent` calls issued.

The `egl::Surface*` / `gl::Context*` arguments are reduced to the data the
function reads from them: the native handle (`getSurface()` /
`getContext()`) and the `isExternal()` flag; a null pointer is `none`.
Debug-only `ASSERT`s are no-ops, as in a release build. The trailing
`DisplayGL::makeCurrent` call only updates frontend bookkeeping and always
succeeds; it is not part of the modelled observable behavior. -/

structure CurrentNativeContext where
  surface : Nat := 0
  context : Nat := 0
  isExternalContext : Bool := false
deriving DecidableEq, Repr

structure SurfaceArg where
  getSurface : Nat
  isExternal : Bool
deriving DecidableEq, Repr

structure ContextArg where
  getContext : Nat
  isExternal : Bool
deriving DecidableEq, Repr

/-- Environment read by `makeCurrent`: the display fields and the native
`eglMakeCurrent` entry point. The oracle returns `.ok ()` on `EGL_TRUE`
and `.error e` on `EGL_FALSE`, with `e` the code `eglGetError` would then
report. -/
structure MakeCurrentEnv where
  virtualizedContexts : Bool
  supportsSurfaceless : Bool
  mockPbuffer : Nat
  rendererContext : Nat
  nativeMakeCurrent : Nat → Nat → Except Int Unit

structure MakeCurrentOutcome where
  result : Except Int Unit
  state : CurrentNativeContext
  nativeCalls : List (Nat × Nat)
deriving Repr

/-- Lines 727-732: the native surface handle requested
(`drawSurfaceEGL->getSurface()`, or `EGL_NO_SURFACE` for null). -/
def surfaceHandle : Option SurfaceArg → Nat
  | some s => s.getSurface
  | none => 0

/-- Lines 734-739: the native context handle requested
(`contextEGL->getContext()`, or `EGL_NO_CONTEXT` for null). -/
def contextHandle : Option ContextArg → Nat
  | some c => c.getContext
  | none => 0

/-- `context && context->isExternal()` (line 741). -/
def contextIsExternal : Option ContextArg → Bool
  | some c => c.isExternal
  | none => false

/-- Lines 781-804: the (surface, context) pair `makeCurrent` resolves on
its non-external path. When virtualization is on and a non-null native
context is requested, the context is substituted by the shared renderer's
context, an absent surface falls back to the thread's cached surface, and
a still-absent surface falls back to the mock pbuffer when the driver
lacks surfaceless support. -/
def resolvedPair (env : MakeCurrentEnv)
    (currentContext : CurrentNativeContext)
    (drawSurface : Option SurfaceArg) (context : Option ContextArg) :
    Nat × Nat :=
  let newSurface : Nat := surfaceHandle drawSurface
  let newContext : Nat := contextHandle context
  if env.virtualizedContexts && newContext ≠ 0 then
    let newContext := env.rendererContext
    let newSurface :=
      if newSurface = 0 then currentContext.surface else newSurface
    let newSurface :=
      if newSurface = 0 && !env.supportsSurfaceless then env.mockPbuffer
      else newSurface
    (newSurface, newContext)
  else
    (newSurface, newContext)

def DisplayEGL.makeCurrent (env : MakeCurrentEnv)
    (currentContext : CurrentNativeContext)
    (drawSurface : Option SurfaceArg) (context : Option ContextArg) :
    MakeCurrentOutcome :=
  let newContext : Nat := contextHandle context
  if currentContext.isExternalContext || contextIsExternal context then
    if !currentContext.isExternalContext then
      -- Switch to an ANGLE external context.
      ⟨.ok (), { currentContext with
                  context := newContext
                  isExternalContext := true }, []⟩
    else if context.isSome then
      -- Switch surface but not context: nothing to record, no native call.
      ⟨.ok (), currentContext, []⟩
    else
      -- Release the ANGLE external context.
      ⟨.ok (), { currentContext with
                  context := 0
                  isExternalContext := false }, []⟩
  else
    let resolved : Nat × Nat := resolvedPair env currentContext drawSurface context
    if resolved.1 ≠ currentContext.surface ∨ resolved.2 ≠ currentContext.context then
      match env.nativeMakeCurrent resolved.1 resolved.2 with
      | .error e => ⟨.error e, currentContext, [resolved]⟩
      | .ok _ =>
        ⟨.ok (), { currentContext with
                    surface := resolved.1
                    context := resolved.2 }, [resolved]⟩
    else
      ⟨.ok (), currentContext, []⟩

/-! ### DisplayEGL::destroyNativeContext (`DisplayEGL.cpp`, lines 824-838)

`mCurrentNativeContexts` is a map from thread id to `CurrentNativeContext`;
it is modelled as an association list. The observable actions — clearing a
thread's cache entry and the native `eglDestroyContext` call — are emitted
into an event list in program order. -/

inductive DestroyEvent where
  | clearEntry (threadId : Nat)
  | nativeDestroy (context : Nat)
deriving DecidableEq, Repr

/-- The scan loop of `destroyNativeContext`: clear any entry whose cached
context equals the handle being destroyed, emitting a `clearEntry` event
for each. -/
def clearCurrentEntries (context : Nat) :
    List (Nat × CurrentNativeContext) →
    List (Nat × CurrentNativeContext) × List DestroyEvent
  | [] => ([], [])
  | (tid, st) :: rest =>
    let (rest', events) := clearCurrentEntries context rest
    if st.context = context then
      ((tid, { st with surface := 0, context := 0 }) :: rest',
        DestroyEvent.clearEntry tid :: events)
    else
      ((tid, st) :: rest', events)

def destroyNativeContext (contexts : List (Nat × CurrentNativeContext))
    (context : Nat) :
    List (Nat × CurrentNativeContext) × List DestroyEvent :=
  let (contexts', events) := clearCurrentEntries context contexts
  (contexts', events ++ [DestroyEvent.nativeDestroy context])

/-! ### DisplayEGL::generateConfigs (`DisplayEGL.cpp`, lines 538-674)

The per-config body of the enumeration loop. A native config is reduced to
the queried attributes that the classification and claim read; the ~25
further attributes the loop copies verbatim into the output record do not
affect membership or the two derived format fields and are omitted.
`config.surfaceType &= ~EGL_PIXMAP_BIT` on the 32-bit `EGLint` is the mask
with `0xFFFFFFFD`. The debug-only `ASSERT` on the color component type is a
no-op, as in a release build. The surrounding `eglChooseConfig` enumeration
supplies the input list; `egl::ConfigSet::add` appends accepted configs in
iteration order, which `List.filterMap` reproduces. -/

structure NativeConfig where
  redSize : Int
  greenSize : Int
  blueSize : Int
  alphaSize : Int
  depthSize : Int
  stencilSize : Int
  colorBufferType : Int
  surfaceType : Nat
  configID : Int
deriving DecidableEq, Repr

structure EGLConfig where
  redSize : Int
  greenSize : Int
  blueSize : Int
  alphaSize : Int
  depthSize : Int
  stencilSize : Int
  colorBufferType : Int
  surfaceType : Nat
  configID : Int
  renderTargetFormat : Int
  depthStencilFormat : Int
deriving DecidableEq, Repr

/-- One iteration of the `generateConfigs` loop: classify the native
config, or reject it (`continue` in the source) by returning `none`. -/
def processConfig (n : NativeConfig) : Option EGLConfig :=
  -- Pixmaps are not supported on EGL, make sure the config doesn't expose them.
  let surfaceType := n.surfaceType &&& 0xFFFFFFFD
  if n.colorBufferType = EGL_RGB_BUFFER then
    let renderTargetFormat? : Option Int :=
      if n.redSize = 8 ∧ n.greenSize = 8 ∧ n.blueSize = 8 ∧ n.alphaSize = 8 then
        some GL_RGBA8
      else if n.redSize = 8 ∧ n.greenSize = 8 ∧ n.blueSize = 8 ∧ n.alphaSize = 0 then
        some GL_RGB8
      else if n.redSize = 5 ∧ n.greenSize = 6 ∧ n.blueSize = 5 ∧ n.alphaSize = 0 then
        some GL_RGB565
      else if n.redSize = 5 ∧ n.greenSize = 5 ∧ n.blueSize = 5 ∧ n.alphaSize = 1 then
        some GL_RGB5_A1
      else if n.redSize = 4 ∧ n.greenSize = 4 ∧ n.blueSize = 4 ∧ n.alphaSize = 4 then
        some GL_RGBA4
      else if n.redSize = 10 ∧ n.greenSize = 10 ∧ n.blueSize = 10 ∧ n.alphaSize = 2 then
        some GL_RGB10_A2
      else
        none
    match renderTargetFormat? with
    | none => none
    | some renderTargetFormat =>
      let depthStencilFormat? : Option Int :=
        if n.depthSize = 0 ∧ n.stencilSize = 0 then some GL_ZERO
        else if n.depthSize = 16 ∧ n.stencilSize = 0 then some GL_DEPTH_COMPONENT16
        else if n.depthSize = 24 ∧ n.stencilSize = 0 then some GL_DEPTH_COMPONENT24
        else if n.depthSize = 24 ∧ n.stencilSize = 8 then some GL_DEPTH24_STENCIL8
        else if n.depthSize = 0 ∧ n.stencilSize = 8 then some GL_STENCIL_INDEX8
        else none
      match depthStencilFormat? with
      | none => none
      | some depthStencilFormat =>
        some { redSize := n.redSize
               greenSize := n.greenSize
               blueSize := n.blueSize
               alphaSize := n.alphaSize
               depthSize := n.depthSize
               stencilSize := n.stencilSize
               colorBufferType := n.colorBufferType
               surfaceType := surfaceType
               configID := n.configID
               renderTargetFormat := renderTargetFormat
               depthStencilFormat := depthStencilFormat }
  else
    none

def generateConfigs (configs : List NativeConfig) : List EGLConfig :=
  configs.filterMap processConfig

/-! ### DisplayEGL::initializeContext (`DisplayEGL.cpp`, lines 146-251)

`egl::AttributeMap` wraps a `std::map<EGLAttrib, EGLAttrib>` (the container
lives outside `src/`): keys are kept in strictly ascending order, `insert`
overwrites, and `toIntVector` flattens the map in key order as
`key, value, ..., EGL_NONE`. -/

def insertAttrib : List (Int × Int) → Int → Int → List (Int × Int)
  | [], key, value => [(key, value)]
  | (k, v) :: rest, key, value =>
    if key < k then (key, value) :: (k, v) :: rest
    else if key = k then (key, value) :: rest
    else (k, v) :: insertAttrib rest key value

/-- `egl::AttributeMap::getAsInt(key, defaultValue)`. -/
def getAsInt (m : List (Int × Int)) (key defaultValue : Int) : Int :=
  match List.lookup key m with
  | some v => v
  | none => defaultValue

/-- `egl::AttributeMap::toIntVector()`: each key/value pair in key order,
terminated by `EGL_NONE`. -/
def toIntVector (m : List (Int × Int)) : List Int :=
  List.foldr (fun kv acc => kv.1 :: kv.2 :: acc) [EGL_NONE] m

/-- The native `FunctionsEGL` state read during context negotiation. The
`createContext` oracle maps an attribute vector to either a (nonzero)
context handle or the native error code a subsequent `getError()` reports;
the config and share context, fixed across the whole negotiation, are
elided from its arguments. -/
structure EGLFunctions where
  majorVersion : Nat
  minorVersion : Nat
  extensions : List String
  createContext : List Int → Except Int Nat

def hasExtension (egl : EGLFunctions) (name : String) : Bool :=
  egl.extensions.contains name

/-- `gl::Version(major, minor) >= gl::Version(M, m)` (lexicographic). -/
def versionAtLeast (major minor M m : Nat) : Bool :=
  major > M || (major = M && minor ≥ m)

structure NegotiationEnv where
  egl : EGLFunctions
  hasEXTCreateContextRobustness : Bool
  hasNVRobustnessVideoMemoryPurge : Bool

inductive InitError where
  | badAttribute (message : String)
  | createFailed (nativeError : Int)
deriving DecidableEq, Repr

/-- Result of `initializeContext` plus the trace of attribute vectors
passed to `eglCreateContext`, in call order. On success the pair carries
`*outContext` and `*outAttribs`. -/
structure InitOutcome where
  result : Except InitError (Nat × List Int)
  attempts : List (List Int)
deriving Repr

/-- The robust variant of a candidate attribute set (lines 218-225):
add the reset-notification strategy, plus the NV video-memory-purge flag
when that extension is present. -/
def attribsWithRobustness (d : NegotiationEnv) (attribs : List (Int × Int)) :
    List (Int × Int) :=
  let a := insertAttrib attribs EGL_CONTEXT_OPENGL_RESET_NOTIFICATION_STRATEGY
    EGL_LOSE_CONTEXT_ON_RESET
  if d.hasNVRobustnessVideoMemoryPurge then
    insertAttrib a EGL_GENERATE_RESET_ON_VIDEO_MEMORY_PURGE_NV GL_TRUE
  else
    a

/-- The `for (attribs : contextAttribLists)` loop (lines 211-250).
`lastError` threads the native error state that `mEGL->getError()` reads
after the loop: each failed `createContext` replaces it. -/
def negotiateLoop (d : NegotiationEnv) (lastError : Int) :
    List (List (Int × Int)) → InitOutcome
  | [] => ⟨.error (.createFailed lastError), []⟩
  | attribs :: rest =>
    if d.hasEXTCreateContextRobustness then
      match d.egl.createContext (toIntVector (attribsWithRobustness d attribs)) with
      | .ok context =>
        ⟨.ok (context, toIntVector (attribsWithRobustness d attribs)),
         [toIntVector (attribsWithRobustness d attribs)]⟩
      | .error _ =>
        match d.egl.createContext (toIntVector attribs) with
        | .ok context =>
          ⟨.ok (context, toIntVector attribs),
           [toIntVector (attribsWithRobustness d attribs), toIntVector attribs]⟩
        | .error e =>
          ⟨(negotiateLoop d e rest).result,
           toIntVector (attribsWithRobustness d attribs) :: toIntVector attribs ::
             (negotiateLoop d e rest).attempts⟩
    else
      match d.egl.createContext (toIntVector attribs) with
      | .ok context => ⟨.ok (context, toIntVector attribs), [toIntVector attribs]⟩
      | .error e =>
        ⟨(negotiateLoop d e rest).result,
         toIntVector attribs :: (negotiateLoop d e rest).attempts⟩

def requestedMajor (eglAttributes : List (Int × Int)) : Int :=
  getAsInt eglAttributes EGL_PLATFORM_ANGLE_MAX_VERSION_MAJOR_ANGLE EGL_DONT_CARE

def requestedMinor (eglAttributes : List (Int × Int)) : Int :=
  getAsInt eglAttributes EGL_PLATFORM_ANGLE_MAX_VERSION_MINOR_ANGLE EGL_DONT_CARE

/-- `initializeRequested` (line 157): an explicit major and minor version
were both requested. -/
def initializeRequested (eglAttributes : List (Int × Int)) : Bool :=
  requestedMajor eglAttributes != EGL_DONT_CARE &&
    requestedMinor eglAttributes != EGL_DONT_CARE

def initializeContext (d : NegotiationEnv) (eglAttributes : List (Int × Int)) :
    InitOutcome :=
  if versionAtLeast d.egl.majorVersion d.egl.minorVersion 1 5 ||
      hasExtension d.egl "EGL_KHR_create_context" then
    if initializeRequested eglAttributes then
      negotiateLoop d 0
        [insertAttrib
          (insertAttrib [] EGL_CONTEXT_MAJOR_VERSION (requestedMajor eglAttributes))
          EGL_CONTEXT_MINOR_VERSION (requestedMinor eglAttributes)]
    else
      negotiateLoop d 0
        (([(3, 2), (3, 1), (3, 0), (2, 0)] : List (Nat × Nat)).map fun version =>
          insertAttrib
            (insertAttrib [] EGL_CONTEXT_MAJOR_VERSION (Int.ofNat version.1))
            EGL_CONTEXT_MINOR_VERSION (Int.ofNat version.2))
  else
    if initializeRequested eglAttributes &&
        (requestedMajor eglAttributes != 2 || requestedMinor eglAttributes != 0) then
      ⟨.error (.badAttribute "Unsupported requested context version"), []⟩
    else
      negotiateLoop d 0 [insertAttrib [] EGL_CONTEXT_CLIENT_VERSION 2]

/-! ### Spec-side negotiation (§4.3 / §8 of the specification)

Independent definitions written from the specification's words, to be
compared with `initializeContext`:
an ordered candidate list — the single requested version when an explicit
major/minor was requested and flexible version attributes are available;
otherwise ES 3.2, 3.1, 3.0, 2.0 in that order; otherwise the single legacy
set (error when an explicit non-2.0 version was requested) — expanded per
candidate into the robust attempt strictly before the non-robust attempt
whenever robustness is advertised, and consumed by a first-success
combinator whose failure carries the last native error code. -/

def spec_versionCandidate (major minor : Int) : List (Int × Int) :=
  insertAttrib (insertAttrib [] EGL_CONTEXT_MAJOR_VERSION major)
    EGL_CONTEXT_MINOR_VERSION minor

def spec_legacyCandidate : List (Int × Int) :=
  insertAttrib [] EGL_CONTEXT_CLIENT_VERSION 2

/-- The documented ordered candidate list, or the documented configuration
error when the legacy API cannot honor an explicit version request. -/
def spec_candidates (d : NegotiationEnv) (eglAttributes : List (Int × Int)) :
    Except InitError (List (List (Int × Int))) :=
  if versionAtLeast d.egl.majorVersion d.egl.minorVersion 1 5 ||
      hasExtension d.egl "EGL_KHR_create_context" then
    if initializeRequested eglAttributes then
      .ok [spec_versionCandidate (requestedMajor eglAttributes)
            (requestedMinor eglAttributes)]
    else
      .ok [spec_versionCandidate 3 2, spec_versionCandidate 3 1,
           spec_versionCandidate 3 0, spec_versionCandidate 2 0]
  else
    if initializeRequested eglAttributes &&
        !(requestedMajor eglAttributes == 2 && requestedMinor eglAttributes == 0) then
      .error (.badAttribute "Unsupported requested context version")
    else
      .ok [spec_legacyCandidate]

/-- Per candidate: the robust attempt strictly before the non-robust
attempt when robustness is advertised; only the plain attempt otherwise. -/
def spec_attemptsOfCandidate (d : NegotiationEnv)
    (candidate : List (Int × Int)) : List (List Int) :=
  if d.hasEXTCreateContextRobustness then
    [toIntVector (attribsWithRobustness d candidate), toIntVector candidate]
  else
    [toIntVector candidate]

/-- First-success combinator over the flattened attempt list: the first
attempt that creates a context stops negotiation and is returned with its
attribute vector; exhaustion yields the last native error code. -/
def spec_firstSuccess (create : List Int → Except Int Nat) (lastError : Int) :
    List (List Int) → InitOutcome
  | [] => ⟨.error (.createFailed lastError), []⟩
  | attempt :: rest =>
    match create attempt with
    | .ok context => ⟨.ok (context, attempt), [attempt]⟩
    | .error e =>
      ⟨(spec_firstSuccess create e rest).result,
       attempt :: (spec_firstSuccess create e rest).attempts⟩

def spec_negotiate (d : NegotiationEnv) (eglAttributes : List (Int × Int)) :
    InitOutcome :=
  match spec_candidates d eglAttributes with
  | .error err => ⟨.error err, []⟩
  | .ok candidates =>
    spec_firstSuccess d.egl.createContext 0
      (candidates.flatMap (spec_attemptsOfCandidate d))

/-! ### Spec-side config classification (§4.2 of the specification) -/

def lookupTable {α β : Type} [DecidableEq α] : List (α × β) → α → Option β
  | [], _ => none
  | (k, v) :: rest, a => if a = k then some v else lookupTable rest a

/-- RGBA bit pattern → render-target format, per the specification. -/
def spec_rgbaTable : List ((Int × Int × Int × Int) × Int) :=
  [((8, 8, 8, 8), GL_RGBA8), ((8, 8, 8, 0), GL_RGB8), ((5, 6, 5, 0), GL_RGB565),
   ((5, 5, 5, 1), GL_RGB5_A1), ((4, 4, 4, 4), GL_RGBA4), ((10, 10, 10, 2), GL_RGB10_A2)]

/-- (depth, stencil) bits → depth-stencil format, per the specification. -/
def spec_depthStencilTable : List ((Int × Int) × Int) :=
  [((0, 0), GL_ZERO), ((16, 0), GL_DEPTH_COMPONENT16), ((24, 0), GL_DEPTH_COMPONENT24),
   ((24, 8), GL_DEPTH24_STENCIL8), ((0, 8), GL_STENCIL_INDEX8)]

/-- The specification's classification rule: keep an RGB-buffer config
exactly when both table lookups hit, deriving the two format fields from
the tables; reject everything else. -/
def spec_classifyConfig (n : NativeConfig) : Option EGLConfig :=
  if n.colorBufferType = EGL_RGB_BUFFER then
    match lookupTable spec_rgbaTable (n.redSize, n.greenSize, n.blueSize, n.alphaSize) with
    | none => none
    | some renderTargetFormat =>
      match lookupTable spec_depthStencilTable (n.depthSize, n.stencilSize) with
      | none => none
      | some depthStencilFormat =>
        some { redSize := n.redSize
               greenSize := n.greenSize
               blueSize := n.blueSize
               alphaSize := n.alphaSize
               depthSize := n.depthSize
               stencilSize := n.stencilSize
               colorBufferType := n.colorBufferType
               surfaceType := n.surfaceType &&& 0xFFFFFFFD
               configID := n.configID
               renderTargetFormat := renderTargetFormat
               depthStencilFormat := depthStencilFormat }
  else
    none

/-! ## Theorems -/

/-- C8: For every `FramebufferAttachment` state and every
(type, binding, textureIndex) argument, `attach` with a null resource
produces exactly the same resulting attachment state and fires exactly the
same notifications as `detach`. -/
theorem attach_null_eq_detach (a : FramebufferAttachment)
    (type binding : Int) (textureIndex : ImageIndex) :
    a.attach type binding textureIndex none = a.detach := rfl

/-- C10: For every `attach` call with a non-null resource, the `onAttach`
notification on the new resource comes strictly before the `onDetach`
notification on the previously bound resource; re-attaching the currently
bound resource therefore fires exactly one `onAttach` followed by exactly
one `onDetach` on that resource, which stays bound throughout. -/
theorem attach_notification_order (a : FramebufferAttachment)
    (type binding : Int) (textureIndex : ImageIndex) (r : Nat) :
    (a.attach type binding textureIndex (some r)).2 =
      Notif.onAttach r ::
        (match a.mResource with
         | some old => [Notif.onDetach old]
         | none => []) ∧
    ({ a with mResource := some r }.attach type binding textureIndex
        (some r)).2 = [Notif.onAttach r, Notif.onDetach r] ∧
    ({ a with mResource := some r }.attach type binding textureIndex
        (some r)).1.mResource = some r :=
  ⟨rfl, rfl, rfl⟩

/-- C9: For every input, `createPixmapSurface` returns the defined
"not implemented" result: the null surface pointer together with the
unimplemented marker — never a successfully created surface, never a
silent success. -/
theorem createPixmapSurface_unimplemented (state nativePixmap : Nat)
    (attribs : List (Int × Int)) :
    createPixmapSurface state nativePixmap attribs = (none, true) := rfl

/-- The scan loop of `destroyNativeContext` clears exactly the entries
bound to the destroyed handle and emits one clear event per such entry,
in map order. -/
theorem clearCurrentEntries_eq (context : Nat)
    (contexts : List (Nat × CurrentNativeContext)) :
    clearCurrentEntries context contexts =
      (contexts.map (fun e =>
        if e.2.context = context then
          (e.1, { e.2 with surface := 0, context := 0 })
        else e),
       (contexts.filter (fun e => e.2.context == context)).map
         (fun e => DestroyEvent.clearEntry e.1)) := by
  induction contexts with
  | nil => rfl
  | cons head tail ih =>
    obtain ⟨tid, st⟩ := head
    simp only [clearCurrentEntries, ih, List.map_cons, List.filter_cons]
    by_cases h : st.context = context
    · simp [h]
    · simp [h]

/-- C4: `destroyNativeContext h` clears both the cached surface and the
cached context in every thread's entry whose bound context equals `h` (all
other entries and fields are untouched), and every such clear event
precedes the single native destroy call in the emitted event order. -/
theorem destroyNativeContext_clears_all_threads
    (contexts : List (Nat × CurrentNativeContext)) (context : Nat) :
    (destroyNativeContext contexts context).1 =
      contexts.map (fun e =>
        if e.2.context = context then
          (e.1, { e.2 with surface := 0, context := 0 })
        else e) ∧
    (destroyNativeContext contexts context).2 =
      (contexts.filter (fun e => e.2.context == context)).map
          (fun e => DestroyEvent.clearEntry e.1)
        ++ [DestroyEvent.nativeDestroy context] := by
  unfold destroyNativeContext
  rw [clearCurrentEntries_eq]
  exact ⟨rfl, rfl⟩

/-- The specification's RGBA table, unfolded to the exact-match chain. -/
theorem lookup_rgbaTable (r g b a : Int) :
    lookupTable spec_rgbaTable (r, g, b, a) =
      if r = 8 ∧ g = 8 ∧ b = 8 ∧ a = 8 then some GL_RGBA8
      else if r = 8 ∧ g = 8 ∧ b = 8 ∧ a = 0 then some GL_RGB8
      else if r = 5 ∧ g = 6 ∧ b = 5 ∧ a = 0 then some GL_RGB565
      else if r = 5 ∧ g = 5 ∧ b = 5 ∧ a = 1 then some GL_RGB5_A1
      else if r = 4 ∧ g = 4 ∧ b = 4 ∧ a = 4 then some GL_RGBA4
      else if r = 10 ∧ g = 10 ∧ b = 10 ∧ a = 2 then some GL_RGB10_A2
      else none := by
  simp only [spec_rgbaTable, lookupTable, Prod.mk.injEq]

/-- The specification's depth/stencil table, unfolded to the exact-match
chain. -/
theorem lookup_depthStencilTable (d s : Int) :
    lookupTable spec_depthStencilTable (d, s) =
      if d = 0 ∧ s = 0 then some GL_ZERO
      else if d = 16 ∧ s = 0 then some GL_DEPTH_COMPONENT16
      else if d = 24 ∧ s = 0 then some GL_DEPTH_COMPONENT24
      else if d = 24 ∧ s = 8 then some GL_DEPTH24_STENCIL8
      else if d = 0 ∧ s = 8 then some GL_STENCIL_INDEX8
      else none := by
  simp only [spec_depthStencilTable, lookupTable, Prod.mk.injEq]

theorem processConfig_eq_spec (n : NativeConfig) :
    processConfig n = spec_classifyConfig n := by
  unfold processConfig spec_classifyConfig
  rw [lookup_rgbaTable, lookup_depthStencilTable]

/-- C5: `generateConfigs` classifies each RGB-buffer native config by
exact table match — (8,8,8,8)→RGBA8, (8,8,8,0)→RGB8, (5,6,5,0)→RGB565,
(5,5,5,1)→RGB5A1, (4,4,4,4)→RGBA4, (10,10,10,2)→RGB10A2 for the color
format and (0,0)→none, (16,0)→D16, (24,0)→D24, (24,8)→D24S8, (0,8)→S8 for
depth/stencil — and every config whose color-buffer type is not RGB or
whose bit combination is outside these tables is absent from the returned
set. -/
theorem generateConfigs_exact_classification (configs : List NativeConfig) :
    generateConfigs configs = configs.filterMap spec_classifyConfig := by
  unfold generateConfigs
  congr 1
  funext n
  exact processConfig_eq_spec n

/-- C2: On the non-external path of `makeCurrent`, the native make-current
call is issued if and only if the resolved (surface, context) pair differs
from the calling thread's cached pair — zero native calls when equal,
exactly one otherwise; on native success the cache is updated to the
resolved pair, and on native failure the cache is unchanged and the typed
error carries the native error code. -/
theorem makeCurrent_native_call_discipline (env : MakeCurrentEnv)
    (currentContext : CurrentNativeContext)
    (drawSurface : Option SurfaceArg) (context : Option ContextArg)
    (hNotExternal : currentContext.isExternalContext = false)
    (hCtxNotExternal : contextIsExternal context = false) :
    ((DisplayEGL.makeCurrent env currentContext drawSurface context).nativeCalls =
      if resolvedPair env currentContext drawSurface context =
          (currentContext.surface, currentContext.context)
      then [] else [resolvedPair env currentContext drawSurface context]) ∧
    (resolvedPair env currentContext drawSurface context =
        (currentContext.surface, currentContext.context) →
      DisplayEGL.makeCurrent env currentContext drawSurface context =
        ⟨.ok (), currentContext, []⟩) ∧
    (resolvedPair env currentContext drawSurface context ≠
        (currentContext.surface, currentContext.context) →
      match env.nativeMakeCurrent
          (resolvedPair env currentContext drawSurface context).1
          (resolvedPair env currentContext drawSurface context).2 with
      | .ok _ =>
        DisplayEGL.makeCurrent env currentContext drawSurface context =
          ⟨.ok (),
           { currentContext with
              surface := (resolvedPair env currentContext drawSurface context).1
              context := (resolvedPair env currentContext drawSurface context).2 },
           [resolvedPair env currentContext drawSurface context]⟩
      | .error e =>
        DisplayEGL.makeCurrent env currentContext drawSurface context =
          ⟨.error e, currentContext,
           [resolvedPair env currentContext drawSurface context]⟩) := by
  unfold DisplayEGL.makeCurrent
  rw [hNotExternal, hCtxNotExternal]
  simp only [Bool.or_self, Bool.false_eq_true, if_false]
  by_cases h : resolvedPair env currentContext drawSurface context =
      (currentContext.surface, currentContext.context)
  · have h1 : (resolvedPair env currentContext drawSurface context).1 =
        currentContext.surface := by rw [h]
    have h2 : (resolvedPair env currentContext drawSurface context).2 =
        currentContext.context := by rw [h]
    simp [h, h1, h2]
  · have h' : (resolvedPair env currentContext drawSurface context).1 ≠
        currentContext.surface ∨
        (resolvedPair env currentContext drawSurface context).2 ≠
        currentContext.context := by
      by_contra hc
      push_neg at hc
      exact h (Prod.ext hc.1 hc.2)
    rw [if_pos h', if_neg h]
    refine ⟨?_, fun hco => absurd hco h, ?_⟩
    · cases hm : env.nativeMakeCurrent
        (resolvedPair env currentContext drawSurface context).1
        (resolvedPair env currentContext drawSurface context).2 <;> simp [hm]
    · intro _
      cases hm : env.nativeMakeCurrent
        (resolvedPair env currentContext drawSurface context).1
        (resolvedPair env currentContext drawSurface context).2 <;> simp [hm]

/-- C2 witness: a concrete environment where the resolved pair differs
from the cache and the native call succeeds. -/
theorem makeCurrent_native_call_discipline_witness :
    (DisplayEGL.makeCurrent
      ⟨true, false, 5, 9, fun _ _ => .ok ()⟩
      ⟨0, 0, false⟩ none (some ⟨3, false⟩)).nativeCalls = [(5, 9)] := by
  have h := makeCurrent_native_call_discipline
    ⟨true, false, 5, 9, fun _ _ => .ok ()⟩
    ⟨0, 0, false⟩ none (some ⟨3, false⟩) rfl rfl
  have hr : resolvedPair ⟨true, false, 5, 9, fun _ _ => .ok ()⟩
      ⟨0, 0, false⟩ none (some ⟨3, false⟩) = (5, 9) := rfl
  rw [h.1, hr]
  decide

/-- C3: When virtualization is enabled and a context with a non-null native
handle is requested (non-external path), the resolved context is the shared
renderer's native context; when no surface was requested the thread's
cached surface is reused, and when that is still absent and the driver
lacks surfaceless support the mock pbuffer is substituted. -/
theorem makeCurrent_virtualization_resolution (env : MakeCurrentEnv)
    (currentContext : CurrentNativeContext)
    (drawSurface : Option SurfaceArg) (c : ContextArg)
    (hVirt : env.virtualizedContexts = true)
    (hCtx : c.getContext ≠ 0) :
    (resolvedPair env currentContext drawSurface (some c)).2 =
      env.rendererContext ∧
    (drawSurface = none →
      (resolvedPair env currentContext drawSurface (some c)).1 =
        if currentContext.surface = 0 ∧ env.supportsSurfaceless = false
        then env.mockPbuffer
        else currentContext.surface) := by
  unfold resolvedPair
  simp only [contextHandle, hVirt, Bool.true_and]
  rw [if_pos]
  swap
  · simpa using hCtx
  constructor
  · rfl
  · intro hds
    subst hds
    simp only [surfaceHandle, if_pos rfl]
    by_cases hs : currentContext.surface = 0
    · by_cases hsl : env.supportsSurfaceless
      · simp [hs, hsl]
      · simp [hs, hsl]
    · simp [hs]

/-- C3 witness: virtualization on, no surface requested, empty cache, no
surfaceless support — the mock pbuffer and renderer context are resolved. -/
theorem makeCurrent_virtualization_resolution_witness :
    (resolvedPair ⟨true, false, 5, 9, fun _ _ => .ok ()⟩
        ⟨0, 0, false⟩ none (some ⟨3, false⟩)).2 = 9 ∧
    (resolvedPair ⟨true, false, 5, 9, fun _ _ => .ok ()⟩
        ⟨0, 0, false⟩ none (some ⟨3, false⟩)).1 = 5 := by
  have h := makeCurrent_virtualization_resolution
    ⟨true, false, 5, 9, fun _ _ => .ok ()⟩
    ⟨0, 0, false⟩ none ⟨3, false⟩ rfl (by decide)
  exact ⟨h.1, by rw [h.2 rfl]; decide⟩

/-- C7: Starting from the empty thread state, adopting an external context
(with the external no-native-drawable surface) and then releasing it with
a null context and surface restores exactly the empty thread state, and
neither call issues a native make-current call. -/
theorem external_adopt_release_roundtrip (env : MakeCurrentEnv)
    (extSurface : SurfaceArg) (extContext : ContextArg)
    (hSurf : extSurface.getSurface = 0)
    (hSurfExt : extSurface.isExternal = true)
    (hCtxExt : extContext.isExternal = true) :
    (DisplayEGL.makeCurrent env ⟨0, 0, false⟩
        (some extSurface) (some extContext)).nativeCalls = [] ∧
    (DisplayEGL.makeCurrent env
        (DisplayEGL.makeCurrent env ⟨0, 0, false⟩
          (some extSurface) (some extContext)).state
        none none).nativeCalls = [] ∧
    (DisplayEGL.makeCurrent env
        (DisplayEGL.makeCurrent env ⟨0, 0, false⟩
          (some extSurface) (some extContext)).state
        none none).state = ⟨0, 0, false⟩ ∧
    (DisplayEGL.makeCurrent env ⟨0, 0, false⟩
        (some extSurface) (some extContext)).result = .ok () ∧
    (DisplayEGL.makeCurrent env
        (DisplayEGL.makeCurrent env ⟨0, 0, false⟩
          (some extSurface) (some extContext)).state
        none none).result = .ok () := by
  have hstep1 : DisplayEGL.makeCurrent env ⟨0, 0, false⟩
      (some extSurface) (some extContext) =
      ⟨.ok (), ⟨0, extContext.getContext, true⟩, []⟩ := by
    unfold DisplayEGL.makeCurrent
    simp [contextIsExternal, hCtxExt, contextHandle]
  have hstep2 : DisplayEGL.makeCurrent env ⟨0, extContext.getContext, true⟩
      none none = ⟨.ok (), ⟨0, 0, false⟩, []⟩ := by
    unfold DisplayEGL.makeCurrent
    simp [contextIsExternal, contextHandle]
  rw [hstep1]
  exact ⟨rfl, by rw [hstep2], by rw [hstep2], rfl, by rw [hstep2]⟩

/-- C7 witness: the round trip at a concrete external surface/context. -/
theorem external_adopt_release_roundtrip_witness :
    (DisplayEGL.makeCurrent ⟨true, false, 5, 9, fun _ _ => .ok ()⟩
        (DisplayEGL.makeCurrent ⟨true, false, 5, 9, fun _ _ => .ok ()⟩
          ⟨0, 0, false⟩ (some ⟨0, true⟩) (some ⟨7, true⟩)).state
        none none).state = ⟨0, 0, false⟩ :=
  (external_adopt_release_roundtrip ⟨true, false, 5, 9, fun _ _ => .ok ()⟩
    ⟨0, true⟩ ⟨7, true⟩ rfl rfl rfl).2.2.1

/-- The candidate loop of `initializeContext` equals the specification's
first-success combinator over the flattened attempt list, for every
threaded last-error value. -/
theorem negotiateLoop_eq_firstSuccess (d : NegotiationEnv) (lastError : Int)
    (candidates : List (List (Int × Int))) :
    negotiateLoop d lastError candidates =
      spec_firstSuccess d.egl.createContext lastError
        (candidates.flatMap (spec_attemptsOfCandidate d)) := by
  induction candidates generalizing lastError with
  | nil => rfl
  | cons attribs rest ih =>
    rw [List.flatMap_cons]
    unfold negotiateLoop spec_attemptsOfCandidate
    by_cases hrob : d.hasEXTCreateContextRobustness
    · rw [if_pos hrob, if_pos hrob]
      rw [List.cons_append, List.cons_append, List.nil_append]
      unfold spec_firstSuccess
      cases h1 : d.egl.createContext (toIntVector (attribsWithRobustness d attribs)) with
      | ok context => rfl
      | error e1 =>
        unfold spec_firstSuccess
        cases h2 : d.egl.createContext (toIntVector attribs) with
        | ok context => rfl
        | error e2 =>
          simp only [ih]
          rfl
    · rw [if_neg hrob, if_neg hrob]
      rw [List.cons_append, List.nil_append]
      unfold spec_firstSuccess
      cases h2 : d.egl.createContext (toIntVector attribs) with
      | ok context => rfl
      | error e2 =>
        simp only [ih]
        rfl

/-- C1: `initializeContext` coincides with the specification's negotiation:
it tries exactly the documented ordered candidate list (the single
requested version when an explicit major/minor was requested and flexible
version attributes are available; otherwise ES 3.2, 3.1, 3.0, 2.0 in that
order; otherwise the single legacy 2.0 set), attempting — whenever
`EGL_EXT_create_context_robustness` is advertised — the robust variant
(with the NV video-memory-purge flag when that sub-extension is present)
strictly before the non-robust variant of the same candidate; the first
successful creation stops negotiation and its attribute vector is returned
with the handle, and exhausting every candidate yields an error carrying
the last native error code. -/
theorem initializeContext_eq_spec_negotiate (d : NegotiationEnv)
    (eglAttributes : List (Int × Int)) :
    initializeContext d eglAttributes = spec_negotiate d eglAttributes := by
  unfold initializeContext spec_negotiate spec_candidates
  by_cases hflex : (versionAtLeast d.egl.majorVersion d.egl.minorVersion 1 5 ||
      hasExtension d.egl "EGL_KHR_create_context") = true
  · rw [if_pos hflex, if_pos hflex]
    by_cases hreq : initializeRequested eglAttributes = true
    · rw [if_pos hreq, if_pos hreq]
      exact negotiateLoop_eq_firstSuccess d 0 _
    · rw [if_neg hreq, if_neg hreq]
      exact negotiateLoop_eq_firstSuccess d 0 _
  · rw [if_neg hflex, if_neg hflex]
    rw [show (initializeRequested eglAttributes &&
        (requestedMajor eglAttributes != 2 || requestedMinor eglAttributes != 0)) =
        (initializeRequested eglAttributes &&
          !(requestedMajor eglAttributes == 2 && requestedMinor eglAttributes == 0))
      from by simp [bne, Bool.not_and]]
    by_cases hbad : (initializeRequested eglAttributes &&
        !(requestedMajor eglAttributes == 2 &&
          requestedMinor eglAttributes == 0)) = true
    · rw [if_pos hbad, if_pos hbad]
    · rw [if_neg hbad, if_neg hbad]
      exact negotiateLoop_eq_firstSuccess d 0 _

/-- C6: When the native API lacks flexible version attributes (EGL below
1.5 and no `EGL_KHR_create_context`) and the caller requested an explicit
major/minor version other than the legacy default 2.0,
`initializeContext` returns the bad-attribute configuration error with an
empty attempt trace — no native context-creation call is made. -/
theorem initializeContext_legacy_explicit_version_error (d : NegotiationEnv)
    (eglAttributes : List (Int × Int))
    (hVer : versionAtLeast d.egl.majorVersion d.egl.minorVersion 1 5 = false)
    (hExt : hasExtension d.egl "EGL_KHR_create_context" = false)
    (hMaj : requestedMajor eglAttributes ≠ EGL_DONT_CARE)
    (hMin : requestedMinor eglAttributes ≠ EGL_DONT_CARE)
    (hNe : requestedMajor eglAttributes ≠ 2 ∨ requestedMinor eglAttributes ≠ 0) :
    initializeContext d eglAttributes =
      ⟨.error (.badAttribute "Unsupported requested context version"), []⟩ := by
  unfold initializeContext
  rw [hVer, hExt]
  simp only [Bool.or_self, Bool.false_eq_true, if_false]
  rw [if_pos]
  simp only [initializeRequested, Bool.and_eq_true, bne_iff_ne, Bool.or_eq_true]
  exact ⟨⟨hMaj, hMin⟩, hNe⟩

/-- C6 witness: EGL 1.4 without `EGL_KHR_create_context`, explicit request
for version 3.0 — the bad-attribute error is returned with zero attempts. -/
theorem initializeContext_legacy_explicit_version_error_witness :
    initializeContext
      ⟨⟨1, 4, [], fun _ => .error 0x3001⟩, false, false⟩
      [(EGL_PLATFORM_ANGLE_MAX_VERSION_MAJOR_ANGLE, 3),
       (EGL_PLATFORM_ANGLE_MAX_VERSION_MINOR_ANGLE, 0)] =
      ⟨.error (.badAttribute "Unsupported requested context version"), []⟩ :=
  initializeContext_legacy_explicit_version_error
    ⟨⟨1, 4, [], fun _ => .error 0x3001⟩, false, false⟩
    [(EGL_PLATFORM_ANGLE_MAX_VERSION_MAJOR_ANGLE, 3),
     (EGL_PLATFORM_ANGLE_MAX_VERSION_MINOR_ANGLE, 0)]
    rfl rfl (by decide) (by decide) (Or.inl (by decide))

end Angle
